import Mathlib

/- Verification of the gaze-analysis repository: a Next.js API proxy route in two
variants (a structured generateObject variant and a free-text generateText
variant) and the client-side GazeRecorder component. Stateful and event-driven
code is embedded as explicit state passing; the browser event loop's timer
callbacks become functions over lists of tick observations; the external model
is a parameter supplying its outcome. JavaScript numbers are modelled as
rationals (floating-point rounding is out of scope). -/

namespace GazeAnalysis

/-- JSON values, the possible results of parsing a request body
(`await request.json()`). -/
inductive Json : Type where
  | null : Json
  | bool (b : Bool) : Json
  | num (q : ℚ) : Json
  | str (s : String) : Json
  | arr (elems : List Json) : Json
  | obj (fields : List (String × Json)) : Json

/-- JavaScript property access on a plain object: the binding with the given
key, `none` standing for `undefined`. -/
def lookupField (key : String) : List (String × Json) → Option Json
  | [] => none
  | (k, v) :: rest => if k == key then some v else lookupField key rest

/-- Result of the destructuring `const { frames } = body`. -/
inductive Destructure : Type where
  | typeError
  | ok (frames : Option Json)

/-- `const { frames } = body`: destructuring `null` throws a TypeError (JSON has
no `undefined`); any other JSON value yields its `frames` property, or
`undefined` (`none`) when absent (property access on primitives boxes them and
finds no such property). -/
def destructureFrames : Json → Destructure
  | .null => .typeError
  | .obj fields => .ok (lookupField "frames" fields)
  | _ => .ok none

/-- JavaScript truthiness of a JSON value: `null`, `false`, `0` and the empty
string are falsy (`undefined` is handled at the use site; `NaN` cannot arise
from JSON parsing). -/
def Json.truthy : Json → Bool
  | .null => false
  | .bool b => b
  | .num q => q != 0
  | .str s => !(s == "")
  | .arr _ => true
  | .obj _ => true

/-- `Array.isArray`. -/
def Json.isArray : Json → Bool
  | .arr _ => true
  | _ => false

/-- `frames.length`; in the guard it is only consulted after `Array.isArray`
has passed, so the value on non-arrays is irrelevant. -/
def Json.jsLength : Json → Nat
  | .arr elems => elems.length
  | _ => 0

/-- The elements of a JSON array (only applied once the guard has established
the value is a non-empty array). -/
def Json.jsElems : Json → List Json
  | .arr elems => elems
  | _ => []

/-- The input guard `!frames || !Array.isArray(frames) || frames.length === 0`,
with `none` as `undefined` (falsy). -/
def framesGuardFails : Option Json → Bool
  | none => true
  | some v => !v.truthy || !v.isArray || v.jsLength == 0

mutual

/-- JavaScript string coercion as used by the template literal interpolation
of the image into the frame block; array elements join with commas and `null`
elements print as the empty string (rational formatting stands in for number
formatting). -/
def jsString : Json → String
  | .null => "null"
  | .bool true => "true"
  | .bool false => "false"
  | .num q => toString q
  | .str s => s
  | .arr elems => jsStringElems elems
  | .obj _ => "[object Object]"

/-- Comma join of array elements under JavaScript string coercion. -/
def jsStringElems : List Json → String
  | [] => ""
  | [.null] => ""
  | [v] => jsString v
  | .null :: rest => "," ++ jsStringElems rest
  | v :: rest => jsString v ++ "," ++ jsStringElems rest

end

/-- Outcome of `await request.json()`: the parsed JSON value, or the
SyntaxError an unparsable body throws. -/
inductive BodyParse : Type where
  | syntaxError
  | parsed (v : Json)

/-- One entry of the structured variant's output schema (`gazeSchema` in the
generateObject route): frame number, gaze flag, confidence score. This
variant's schema has no eyesClosed field. -/
structure GazeResult : Type where
  frame : ℚ
  gaze : Bool
  confidence : ℚ

/-- NextResponse.json serialization of one result entry. -/
def GazeResult.toJson (r : GazeResult) : Json :=
  .obj [("frame", .num r.frame), ("gaze", .bool r.gaze), ("confidence", .num r.confidence)]

/-- An HTTP response of the route: status code and JSON body. -/
structure Response : Type where
  status : Nat
  body : Json

/-- `NextResponse.json({ error: msg }, { status })`. -/
def errorResponse (status : Nat) (msg : String) : Response :=
  ⟨status, .obj [("error", .str msg)]⟩

/-- The 400 message for a missing, non-array or empty frame list. -/
def noFramesMsg : String := "No frames provided for analysis"

/-- The 400 message of the outer catch's SyntaxError branch. -/
def invalidBodyMsg : String := "Invalid request body format"

/-- The 500 message of the inner catch around the model call. -/
def aiFailureMsg : String :=
  "Failed to analyze frames with AI service. Check API key/quota or model output conformity."

/-- The 500 message of the outer catch for non-SyntaxError exceptions. -/
def genericFailureMsg : String := "Failed to analyze frames"

/-- One frame's block in the prompt: the map body
`(img, idx) => Frame idx+1 and the image as a markdown image`. -/
def frameBlock (idx : Nat) (img : String) : String :=
  "Frame " ++ toString (idx + 1) ++ ":\n![](" ++ img ++ ")"

/-- `frames.map((img, idx) => ...).join("\n\n")`: every frame labeled by its
1-indexed position, joined by blank lines. -/
def framesContent (frames : List String) : String :=
  String.intercalate "\n\n" (frames.mapIdx frameBlock)

/-- The instruction text of the structured variant's prompt (one line; the
frame blocks follow after a blank line). -/
def structuredInstructions : String :=
  "Your task is to analyze the direction of the person\'s gaze in each frame. " ++
  "The person is using a device (laptop or smartphone) with a front-facing camera " ++
  "capturing these images. This means if the person is generally making eye contact " ++
  "with the camera, it is on-screen. Determine if their gaze is directed *towards " ++
  "the device\'s screen/camera* (on-screen = true) or elsewhere (off-screen = false). " ++
  "Facing the camera but with eyes tilted slightly below the camera counts as " ++
  "on-screen as laptop cameras and front facing phone cameras are often mounted " ++
  "above the screen itself. Looking significantly left, right, or up counts as " ++
  "off-screen. For each frame number (1-indexed), provide this true/false " ++
  "determination and a confidence score (0-100). If you cannot see the user\'s " ++
  "face or eyes, return false as well. If there is no person in the image, return " ++
  "false. Output the results according to the provided schema."

/-- The structured variant's system instruction. -/
def structuredSystem : String :=
  "You are a computer vision expert that analyzes gaze direction in images. " ++
  "\'On-screen\' means directed towards the camera/device screen.  You output " ++
  "structured JSON conforming to the provided schema."

/-- The instruction text of the text variant's prompt (a multi-line template
literal; the frame blocks follow after a blank line). -/
def textInstructions : String :=
  "Your task is to analyze the direction of the person\'s gaze in each frame. " ++
  "The person is using a device (laptop or smartphone) with a front-facing camera " ++
  "capturing these images. This means if the person is generally making eye contact " ++
  "with the camera, it is on-screen. Determine if their gaze is directed *towards " ++
  "the device\'s screen/camera* (on-screen = \'gaze: true\') or elsewhere " ++
  "(off-screen = \'gaze: false\'). Facing the camera but with eyes tilted slightly " ++
  "below the camera counts as on-screen as laptop cameras and front facing phone " ++
  "cameras are often mounted above the screen itself. Looking significantly left, " ++
  "right, or up counts as off-screen. For each frame number (1-indexed), provide " ++
  "this true/false determination for \'gaze\', a true/false value for " ++
  "\'eyesClosed\', and a confidence score (0-100).\n\nKey Instructions:\n" ++
  "- If the person\'s eyes are clearly closed, set \'eyesClosed: true\' AND " ++
  "\'gaze: false\'.\n" ++
  "- If you cannot see the person\'s face or eyes clearly enough to determine " ++
  "gaze, set \'gaze: false\' and \'eyesClosed: false\'.\n" ++
  "- If there is no person in the image, set \'gaze: false\' and " ++
  "\'eyesClosed: false\'.\n" ++
  "- Otherwise, determine gaze direction (\'gaze: true\' for on-screen, " ++
  "\'gaze: false\' for off-screen) and set \'eyesClosed: false\'.\n\n" ++
  "Output the results according to the provided schema."

/-- The full prompt of the structured variant. -/
def structuredPrompt (frames : List String) : String :=
  structuredInstructions ++ "\n\n" ++ framesContent frames

/-- The full prompt of the text variant. -/
def textPrompt (frames : List String) : String :=
  textInstructions ++ "\n\n" ++ framesContent frames

/-- Outcome of the structured variant's generateObject call: on success the
vendor SDK has validated the value against gazeSchema; any failure (quota,
auth, non-conformant model output) throws into the inner catch. -/
inductive StructuredOutcome : Type where
  | ok (results : List GazeResult)
  | err

/-- Outcome of the text variant's generateText call. -/
inductive TextOutcome : Type where
  | ok (text : String)
  | err

/-- One run of a handler: the HTTP response, whether the external model was
invoked, and the prompt sent to it when it was. -/
structure HandlerResult : Type where
  response : Response
  modelCalled : Bool
  promptSent : Option String

/-- The input handling shared verbatim by both variants: parse outcome,
destructuring of `frames`, and the guard; gives the rejecting handler result
or the frame list. When the guard passes, the field is a non-empty array,
whose elements `jsElems` extracts. -/
def validateBody : BodyParse → Except HandlerResult (List Json)
  | .syntaxError => .error ⟨errorResponse 400 invalidBodyMsg, false, none⟩
  | .parsed v =>
    match destructureFrames v with
    | .typeError => .error ⟨errorResponse 500 genericFailureMsg, false, none⟩
    | .ok framesOpt =>
      if framesGuardFails framesOpt then
        .error ⟨errorResponse 400 noFramesMsg, false, none⟩
      else
        .ok (framesOpt.getD Json.null).jsElems

/-- The code after the guard in the structured variant: build the prompt and
either return the schema-validated results as the 200 body or fall into the
inner catch's 500. -/
def structuredAnalyze (elems : List Json) (model : StructuredOutcome) : HandlerResult :=
  let prompt := structuredPrompt (elems.map jsString)
  match model with
  | .ok results => ⟨⟨200, .arr (results.map GazeResult.toJson)⟩, true, some prompt⟩
  | .err => ⟨errorResponse 500 aiFailureMsg, true, some prompt⟩

/-- The code after the guard in the text variant: build the prompt and either
return the model's text unparsed (NextResponse.json of a string is a JSON
string body) or fall into the inner catch's 500. -/
def textAnalyze (elems : List Json) (model : TextOutcome) : HandlerResult :=
  let prompt := textPrompt (elems.map jsString)
  match model with
  | .ok t => ⟨⟨200, .str t⟩, true, some prompt⟩
  | .err => ⟨errorResponse 500 aiFailureMsg, true, some prompt⟩

/-- POST handler of the structured variant (generateObject with gazeSchema). -/
def structuredPOST (body : BodyParse) (model : StructuredOutcome) : HandlerResult :=
  match validateBody body with
  | .error r => r
  | .ok elems => structuredAnalyze elems model

/-- POST handler of the text variant (generateText, raw text returned). -/
def textPOST (body : BodyParse) (model : TextOutcome) : HandlerResult :=
  match validateBody body with
  | .error r => r
  | .ok elems => textAnalyze elems model

/-- Shape check for one serialized result entry: an object with a numeric
frame, a boolean gaze and a numeric confidence. -/
def wellFormedEntry : Json → Bool
  | .obj [("frame", .num _), ("gaze", .bool _), ("confidence", .num _)] => true
  | _ => false

/-- Shape check for a 200 body of the structured variant: a JSON array of
well-formed entries. -/
def wellFormedResults : Json → Bool
  | .arr elems => elems.all wellFormedEntry
  | _ => false

/-- C3: an unparsable request body yields, in both variants, a 400 whose error
message differs from the empty-or-missing-frames 400, so the two client-error
cases are distinguishable by response body. -/
theorem unparsable_body_distinct_400 :
    (∀ m, (structuredPOST .syntaxError m).response = errorResponse 400 invalidBodyMsg) ∧
    (∀ m, (textPOST .syntaxError m).response = errorResponse 400 invalidBodyMsg) ∧
    invalidBodyMsg ≠ noFramesMsg :=
  ⟨fun _ => rfl, fun _ => rfl, by decide⟩

/-- C2: whenever the parsed body destructures (it is not JSON null) and the
frames guard fires — missing field, non-array, or empty array — both variants
answer 400 with the no-frames error and do not invoke the external model. -/
theorem invalid_frames_rejected (v : Json) (framesOpt : Option Json)
    (hd : destructureFrames v = .ok framesOpt)
    (hg : framesGuardFails framesOpt = true) :
    (∀ m, structuredPOST (.parsed v) m =
      ⟨errorResponse 400 noFramesMsg, false, none⟩) ∧
    (∀ m, textPOST (.parsed v) m =
      ⟨errorResponse 400 noFramesMsg, false, none⟩) := by
  have hv : validateBody (.parsed v) =
      .error ⟨errorResponse 400 noFramesMsg, false, none⟩ := by
    simp [validateBody, hd, hg]
  exact ⟨fun m => by simp [structuredPOST, hv], fun m => by simp [textPOST, hv]⟩

/-- C2 witness: the empty frame list is rejected with a 400 and no model call. -/
theorem invalid_frames_rejected_witness :
    structuredPOST (.parsed (.obj [("frames", .arr [])])) (.ok []) =
      ⟨errorResponse 400 noFramesMsg, false, none⟩ :=
  (invalid_frames_rejected (.obj [("frames", .arr [])]) (some (.arr [])) rfl rfl).1 (.ok [])

/-- C10: a body that is the JSON literal null parses, but the destructuring of
`frames` throws a TypeError, which the outer catch does not recognise as a
SyntaxError: both variants answer 500 with the generic failure message rather
than a 400. -/
theorem null_body_yields_500 :
    (∀ m, structuredPOST (.parsed .null) m =
      ⟨errorResponse 500 genericFailureMsg, false, none⟩) ∧
    (∀ m, textPOST (.parsed .null) m =
      ⟨errorResponse 500 genericFailureMsg, false, none⟩) :=
  ⟨fun _ => rfl, fun _ => rfl⟩

/-- Whether a JSON object has a field with the given key. -/
def hasFieldNamed (key : String) : Json → Bool
  | .obj fields => (lookupField key fields).isSome
  | _ => false

/-- Whether the character list starts with the pattern. -/
def charsStartWith : List Char → List Char → Bool
  | [], _ => true
  | _ :: _, [] => false
  | p :: ps, c :: cs => p == c && charsStartWith ps cs

/-- Whether the pattern occurs inside the character list. -/
def charsContain (pat : List Char) : List Char → Bool
  | [] => charsStartWith pat []
  | c :: cs => charsStartWith pat (c :: cs) || charsContain pat cs

/-- Substring occurrence on strings, via their character lists. -/
def strContains (pat s : String) : Bool :=
  charsContain pat.toList s.toList

/-- Interpolating a JSON string into the template yields that string. -/
theorem jsString_str (s : String) : jsString (.str s) = s := by
  simp [jsString]

/-- Mapping the template interpolation over frames that are JSON strings gives
back the underlying strings. -/
theorem map_jsString_str (frames : List String) :
    frames.map (jsString ∘ Json.str) = frames := by
  induction frames with
  | nil => rfl
  | cons a l ih => simp [Function.comp, jsString_str, ih]

/-- A body whose frames field is a non-empty array of strings passes the
shared validation and hands the handler exactly those elements. -/
theorem validateBody_strFrames (frames : List String) (h : frames ≠ []) :
    validateBody (.parsed (.obj [("frames", .arr (frames.map Json.str))])) =
      .ok (frames.map Json.str) := by
  cases frames with
  | nil => exact absurd rfl h
  | cons a l => rfl

/-- Each serialized schema entry passes the shape check. -/
theorem wellFormedEntry_toJson (r : GazeResult) :
    wellFormedEntry r.toJson = true := rfl

/-- C1 amended: for every valid non-empty frame list, the structured variant
answers either 200 with a well-formed result list — each entry a frame number,
boolean gaze and numeric confidence, the list being whatever the model
returned, of unconstrained length — or a 500 error; never a 200 with a
malformed-shape body. -/
theorem structured_wellformed_or_500 (frames : List String) (h : frames ≠ [])
    (m : StructuredOutcome) :
    (∃ results, m = .ok results ∧
      structuredPOST (.parsed (.obj [("frames", .arr (frames.map Json.str))])) m =
        ⟨⟨200, .arr (results.map GazeResult.toJson)⟩, true,
          some (structuredPrompt frames)⟩ ∧
      wellFormedResults (.arr (results.map GazeResult.toJson)) = true) ∨
    (structuredPOST (.parsed (.obj [("frames", .arr (frames.map Json.str))])) m).response =
      errorResponse 500 aiFailureMsg := by
  have hv := validateBody_strFrames frames h
  cases m with
  | ok results =>
    left
    refine ⟨results, rfl, ?_, ?_⟩
    · simp [structuredPOST, hv, structuredAnalyze, map_jsString_str]
    · simp only [wellFormedResults, List.all_eq_true]
      intro e he
      obtain ⟨r, _, rfl⟩ := List.mem_map.1 he
      exact wellFormedEntry_toJson r
  | err =>
    right
    simp [structuredPOST, hv, structuredAnalyze]

/-- C1 witness: one frame, one schema-conformant judgment, a 200 with the
well-formed one-entry body. -/
theorem structured_wellformed_or_500_witness :
    (∃ results, StructuredOutcome.ok [⟨1, true, 95⟩] = .ok results ∧
      structuredPOST (.parsed (.obj [("frames", .arr (["img"].map Json.str))]))
          (.ok [⟨1, true, 95⟩]) =
        ⟨⟨200, .arr (results.map GazeResult.toJson)⟩, true,
          some (structuredPrompt ["img"])⟩ ∧
      wellFormedResults (.arr (results.map GazeResult.toJson)) = true) ∨
    (structuredPOST (.parsed (.obj [("frames", .arr (["img"].map Json.str))]))
        (.ok [⟨1, true, 95⟩])).response =
      errorResponse 500 aiFailureMsg :=
  structured_wellformed_or_500 ["img"] (by decide) (.ok [⟨1, true, 95⟩])

/-- C1 counterexample: one valid frame and a schema-conformant model outcome of
two entries give a 200 whose body is a two-entry list: the response length is
not bounded by the input length. -/
theorem structured_length_unbounded_cex :
    (structuredPOST (.parsed (.obj [("frames", .arr [Json.str "img"])]))
        (.ok [⟨1, true, 90⟩, ⟨2, false, 80⟩])).response.status = 200 ∧
    (structuredPOST (.parsed (.obj [("frames", .arr [Json.str "img"])]))
        (.ok [⟨1, true, 90⟩, ⟨2, false, 80⟩])).response.body.jsLength = 2 ∧
    ¬ ((structuredPOST (.parsed (.obj [("frames", .arr [Json.str "img"])]))
        (.ok [⟨1, true, 90⟩, ⟨2, false, 80⟩])).response.body.jsLength ≤
      (Json.arr [Json.str "img"]).jsLength) :=
  ⟨rfl, rfl, by decide⟩

/-- C4: for every non-empty string frame list, both variants send the prompt
that is their instruction block followed by all frames joined in input order,
the frame at 0-based index i labeled Frame i+1. -/
theorem prompt_labels_frames_in_order (frames : List String) (h : frames ≠ [])
    (ms : StructuredOutcome) (mt : TextOutcome) :
    (structuredPOST (.parsed (.obj [("frames", .arr (frames.map Json.str))]))
        ms).promptSent =
      some (structuredInstructions ++ "\n\n" ++
        String.intercalate "\n\n" (frames.mapIdx frameBlock)) ∧
    (textPOST (.parsed (.obj [("frames", .arr (frames.map Json.str))]))
        mt).promptSent =
      some (textInstructions ++ "\n\n" ++
        String.intercalate "\n\n" (frames.mapIdx frameBlock)) ∧
    (frames.mapIdx frameBlock).length = frames.length ∧
    ∀ i (hi : i < frames.length),
      (frames.mapIdx frameBlock).get ⟨i, by simpa using hi⟩ =
        "Frame " ++ toString (i + 1) ++ ":\n![](" ++ frames.get ⟨i, hi⟩ ++ ")" := by
  have hv := validateBody_strFrames frames h
  refine ⟨?_, ?_, by simp, ?_⟩
  · cases ms <;>
      simp [structuredPOST, hv, structuredAnalyze, structuredPrompt, framesContent,
        map_jsString_str]
  · cases mt <;>
      simp [textPOST, hv, textAnalyze, textPrompt, framesContent, map_jsString_str]
  · intro i hi
    exact List.get_mapIdx frames frameBlock i hi

/-- C4 witness: two frames yield the prompt with the two labeled blocks. -/
theorem prompt_labels_frames_in_order_witness :
    (structuredPOST (.parsed (.obj [("frames", .arr (["a", "b"].map Json.str))]))
        (.ok [])).promptSent =
      some (structuredInstructions ++ "\n\n" ++
        String.intercalate "\n\n" (["a", "b"].mapIdx frameBlock)) :=
  (prompt_labels_frames_in_order ["a", "b"] (by decide) (.ok []) (.ok "")).1

set_option maxRecDepth 100000 in
/-- C9: on one valid frame list with both model calls succeeding, the variants
answer 200 with bodies of different JSON shape — an array of schema-validated
judgment objects, none carrying an eyesClosed key, against a raw string — and
only the text variant's prompt mentions eyesClosed. -/
theorem variants_inequivalent :
    ∃ (body : BodyParse) (ms : StructuredOutcome) (mt : TextOutcome),
      (structuredPOST body ms).response.status = 200 ∧
      (textPOST body mt).response.status = 200 ∧
      (structuredPOST body ms).response.body.isArray = true ∧
      (textPOST body mt).response.body.isArray = false ∧
      ((structuredPOST body ms).response.body.jsElems).all
        (fun e => !(hasFieldNamed "eyesClosed" e)) = true ∧
      strContains "eyesClosed" structuredInstructions = false ∧
      strContains "eyesClosed" textInstructions = true := by
  refine ⟨.parsed (.obj [("frames", .arr [Json.str "img"])]),
    .ok [⟨1, true, 90⟩], .ok "the model answered in prose", ?_⟩
  refine ⟨rfl, rfl, rfl, rfl, rfl, ?_, ?_⟩ <;> decide


/-- The recording duration in seconds (client constant). -/
def RECORDING_DURATION : Nat := 2

/-- The target frame count (client constant). -/
def FRAME_COUNT : Nat := 4

/-- The client component's locally declared GazeResult interface: unlike the
structured variant's schema it includes eyesClosed. -/
structure ClientGazeResult : Type where
  frame : ℚ
  gaze : Bool
  eyesClosed : Bool
  confidence : ℚ

/-- The GazeRecorder component's useState cells. -/
structure UIState : Type where
  recording : Bool
  count : Nat
  videoURL : Option String
  loading : Bool
  capturedFrames : List String
  analysisResults : Option (List ClientGazeResult)

/-- The component's initial state, from the useState initialisers. -/
def initialState : UIState :=
  { recording := false, count := RECORDING_DURATION, videoURL := none,
    loading := false, capturedFrames := [], analysisResults := none }

/-- The restart handler: clears the video URL, resets the countdown, clears
the captured frames and the analysis results. -/
def restart (s : UIState) : UIState :=
  { s with
      videoURL := none,
      count := RECORDING_DURATION,
      capturedFrames := [],
      analysisResults := none }

/-- The on-screen count of the results display: entries whose gaze flag is
set. -/
def onScreenCount (rs : List ClientGazeResult) : Nat :=
  (rs.filter (fun r => r.gaze)).length

/-- The off-screen count of the results display: total minus on-screen. -/
def offScreenCount (rs : List ClientGazeResult) : Nat :=
  rs.length - onScreenCount rs

/-- C7: after restart, in every state, the captured frames are empty, the
video URL and the analysis results are cleared, the countdown is back at the
full duration — and from any idle state (not recording, not loading) restart
is exactly the initial capture-ready state. -/
theorem restart_resets_session (s : UIState) :
    (restart s).capturedFrames = [] ∧
    (restart s).videoURL = none ∧
    (restart s).analysisResults = none ∧
    (restart s).count = RECORDING_DURATION ∧
    (s.recording = false → s.loading = false → restart s = initialState) := by
  refine ⟨rfl, rfl, rfl, rfl, fun hr hl => ?_⟩
  cases s
  simp_all [restart, initialState]

/-- C8: for every rendered result list, on-screen plus off-screen counts equal
the number of entries; in particular four results split into counts summing
to four. -/
theorem summary_counts_sum :
    (∀ rs : List ClientGazeResult,
      onScreenCount rs + offScreenCount rs = rs.length) ∧
    (∀ rs : List ClientGazeResult, rs.length = 4 →
      onScreenCount rs + offScreenCount rs = 4) := by
  have key : ∀ rs : List ClientGazeResult,
      onScreenCount rs + offScreenCount rs = rs.length := by
    intro rs
    have hle : onScreenCount rs ≤ rs.length := List.length_filter_le _ _
    unfold offScreenCount
    omega
  exact ⟨key, fun rs h4 => by rw [key rs, h4]⟩

/-- What one grabber tick observes: the stream or video element not ready (the
callback returns early), a captureFrame call that returned null, or a captured
frame. -/
inductive TickView : Type where
  | notReady
  | captureFail
  | captureOk (frame : String)

/-- The grabber interval's closure state: the frames array, the captures
counter, and whether clearInterval(grabber) has run. -/
structure GrabState : Type where
  frames : List String
  captures : Nat
  cleared : Bool

/-- One firing of the grabber setInterval callback: a not-ready tick returns
before touching the counter; a capture attempt — successful or not — advances
the counter, and the interval clears itself once the counter reaches
FRAME_COUNT. -/
def grabberTick (s : GrabState) (t : TickView) : GrabState :=
  if s.cleared then s
  else
    match t with
    | .notReady => s
    | .captureFail =>
        { s with
            captures := s.captures + 1,
            cleared := decide (s.captures + 1 ≥ FRAME_COUNT) }
    | .captureOk f =>
        { frames := s.frames ++ [f],
          captures := s.captures + 1,
          cleared := decide (s.captures + 1 ≥ FRAME_COUNT) }

/-- The grabber over one recording: the ticks that fire, folded from the empty
closure state. -/
def grabberRun (ticks : List TickView) : GrabState :=
  List.foldl grabberTick ⟨[], 0, false⟩ ticks

/-- MediaRecorder states. -/
inductive RecorderState : Type where
  | recording
  | paused
  | inactive

/-- MediaStreamTrack states. -/
inductive TrackState : Type where
  | live
  | ended

/-- The recorder and the camera stream's tracks at finalize time. -/
structure MediaState : Type where
  recorder : RecorderState
  tracks : List TrackState

/-- The stop timeout's callback: it clears both intervals, stops the recorder
unless already inactive, stops every camera track, leaves recording mode,
resets the countdown display and freezes the captured frames into state. -/
def finalizeRecording (media : MediaState) (ui : UIState) (frames : List String) :
    MediaState × UIState :=
  (⟨.inactive, media.tracks.map (fun _ => .ended)⟩,
    { ui with
        recording := false,
        count := RECORDING_DURATION,
        capturedFrames := frames })

/-- Milliseconds between grabber ticks: duration over target frame count. -/
def grabberIntervalMs : Nat := RECORDING_DURATION * 1000 / FRAME_COUNT

/-- Delay in milliseconds of the stop timeout after start. -/
def stopTimeoutDelayMs : Nat := RECORDING_DURATION * 1000

/-- Invariant of the grabber closure: never more frames than counted captures,
never more captures than FRAME_COUNT, and the interval still live only while
the counter is below FRAME_COUNT. -/
def GrabInv (s : GrabState) : Prop :=
  s.frames.length ≤ s.captures ∧ s.captures ≤ FRAME_COUNT ∧
    (s.cleared = false → s.captures < FRAME_COUNT)

/-- One grabber tick preserves the invariant. -/
theorem grabberTick_inv (s : GrabState) (t : TickView) (h : GrabInv s) :
    GrabInv (grabberTick s t) := by
  obtain ⟨h1, h2, h3⟩ := h
  unfold GrabInv grabberTick
  by_cases hc : s.cleared
  · simp only [hc, if_true]
    exact ⟨h1, h2, fun hf => nomatch hf⟩
  · have hcf : s.cleared = false := by revert hc; cases s.cleared <;> simp
    have hlt : s.captures < FRAME_COUNT := h3 hcf
    simp only [hcf, Bool.false_eq_true, if_false]
    cases t with
    | notReady => exact ⟨h1, h2, h3⟩
    | captureFail =>
        refine ⟨Nat.le_succ_of_le h1, hlt, fun hcl => ?_⟩
        simpa [decide_eq_false_iff_not] using hcl
    | captureOk f =>
        refine ⟨by simpa using Nat.succ_le_succ h1, hlt, fun hcl => ?_⟩
        simpa [decide_eq_false_iff_not] using hcl

/-- The invariant holds after any sequence of grabber ticks. -/
theorem grabberRun_inv (ticks : List TickView) : GrabInv (grabberRun ticks) := by
  have step : ∀ (ts : List TickView) (s : GrabState), GrabInv s →
      GrabInv (List.foldl grabberTick s ts) := by
    intro ts
    induction ts with
    | nil => exact fun s hs => hs
    | cons t ts ih => exact fun s hs => ih _ (grabberTick_inv s t hs)
  exact step ticks ⟨[], 0, false⟩ ⟨Nat.le_refl 0, by decide, fun _ => by decide⟩

/-- C5: over every recording, the grabber samples at most FRAME_COUNT frames;
a failed captureFrame tick still advances the tick budget without adding a
frame; and the stop timeout, scheduled exactly RECORDING_DURATION seconds
(in milliseconds) after start, leaves the recorder inactive and every camera
track stopped, whatever the sampling outcomes were. -/
theorem capture_bounded_and_releases :
    (∀ ticks : List TickView, (grabberRun ticks).frames.length ≤ FRAME_COUNT) ∧
    (∀ (s : GrabState), s.cleared = false →
      (grabberTick s .captureFail).captures = s.captures + 1 ∧
      (grabberTick s .captureFail).frames = s.frames) ∧
    stopTimeoutDelayMs = RECORDING_DURATION * 1000 ∧
    (∀ (media : MediaState) (ui : UIState) (frames : List String),
      (finalizeRecording media ui frames).1.recorder = .inactive ∧
      (∀ tr ∈ (finalizeRecording media ui frames).1.tracks, tr = .ended) ∧
      (finalizeRecording media ui frames).2.recording = false ∧
      (finalizeRecording media ui frames).2.capturedFrames = frames) := by
  refine ⟨?_, ?_, rfl, ?_⟩
  · intro ticks
    have h := grabberRun_inv ticks
    exact h.1.trans h.2.1
  · intro s hs
    simp [grabberTick, hs]
  · intro media ui frames
    refine ⟨rfl, ?_, rfl, rfl⟩
    intro tr htr
    simp only [finalizeRecording, List.mem_map] at htr
    obtain ⟨x, -, hx⟩ := htr
    exact hx.symm

/-- The seek loop of extractFramesFromVideo for a usable duration d: the
onseeked handler runs with the video at position fp · d / F (frameInterval is
duration / frameCount and the initial seek is to 0). It captures — the
attempt's outcome, `none` when drawImage threw and the catch skipped the
frame — advances framesProcessed, and either resolves or seeks to the next
position when that is still below the duration (nextTime, a rational here, is
always finite). The list records every visited position with its capture
outcome; the fuel only bounds the recursion and is kept above the remaining
visit count in use. -/
def seekVisits (d : ℚ) (F : Nat) (attempt : Nat → Option String) :
    Nat → Nat → List (ℚ × Option String)
  | 0, _ => []
  | fuel + 1, fp =>
      ((fp : ℚ) * d / (F : ℚ), attempt fp) ::
        (if fp + 1 ≥ F then []
         else if ((fp : ℚ) + 1) * d / (F : ℚ) < d then
           seekVisits d F attempt fuel (fp + 1)
         else [])

/-- The whole seek extraction: the initial `video.currentTime = 0` starts the
loop at framesProcessed 0. -/
def seekExtract (d : ℚ) (F : Nat) (attempt : Nat → Option String) :
    List (ℚ × Option String) :=
  seekVisits d F attempt (F + 1) 0

/-- One firing of the time-based fallback's capture interval: the elapsed
milliseconds at that tick and the draw outcome (`none` when drawImage
threw). -/
structure TimedTick : Type where
  elapsedMs : Nat
  capture : Option String

/-- The time-based fallback's closure state. -/
structure TimedState : Type where
  frames : List String
  framesCaptured : Nat
  finished : Bool

/-- The fixed fallback window (totalDuration, 2 seconds). -/
def FALLBACK_WINDOW_MS : Nat := 2000

/-- One firing of the fallback's setInterval callback: once enough frames are
captured or the window has elapsed it clears the interval and resolves;
otherwise a successful draw appends a frame and a throwing draw changes
nothing. -/
def timedTickStep (F : Nat) (s : TimedState) (t : TimedTick) : TimedState :=
  if s.finished then s
  else if F ≤ s.framesCaptured || FALLBACK_WINDOW_MS ≤ t.elapsedMs then
    { s with finished := true }
  else
    match t.capture with
    | some f =>
        { s with
            frames := s.frames ++ [f],
            framesCaptured := s.framesCaptured + 1 }
    | none => s

/-- The fallback capture over the ticks that fire after playback starts. -/
def timedRun (F : Nat) (ticks : List TimedTick) : TimedState :=
  List.foldl (timedTickStep F) ⟨[], 0, false⟩ ticks

/-- How loading the recorded blob went: the error event fired, or metadata
arrived with a duration (`none` models a missing or NaN duration; a rational
duration is otherwise always finite). -/
inductive LoadOutcome : Type where
  | loadError
  | metadata (duration : Option ℚ)

/-- The duration check of onloadedmetadata: it fails for a missing or NaN
duration and for any duration at most zero. -/
def durationInvalid : Option ℚ → Bool
  | none => true
  | some d => decide (d ≤ 0)

/-- Whether `video.play()` succeeded when the time-based fallback runs. -/
inductive PlayOutcome : Type where
  | playError
  | plays (ticks : List TimedTick)

/-- How extractFramesFromVideo settles its promise. -/
inductive ExtractResult : Type where
  | resolved (frames : List String)
  | rejected

/-- extractFramesFromVideo with its browser events supplied as parameters.
First the function asks the fresh canvas for its 2D context: `ctxOk` is
whether `canvas.getContext("2d")` returned non-null, and when it did not the
promise is rejected at once ("Could not get canvas context"), before any
loading or playing. Otherwise a load error rejects; a usable duration runs
the seek loop and resolves with the frames it captured; an unusable one runs
the timed fallback, rejecting exactly when play() fails. The repeated `!ctx`
checks inside the two capture callbacks are unreachable once this first check
has passed (ctx is captured by the closures) and so need no event of their
own. -/
def extractFramesFromVideo (ctxOk : Bool) (load : LoadOutcome) (F : Nat)
    (attempt : Nat → Option String) (play : PlayOutcome) : ExtractResult :=
  if !ctxOk then .rejected
  else
    match load with
    | .loadError => .rejected
    | .metadata dur =>
        if durationInvalid dur then
          match play with
          | .playError => .rejected
          | .plays ticks => .resolved (timedRun F ticks).frames
        else
          .resolved ((seekExtract (dur.getD 0) F attempt).filterMap Prod.snd)

/-- Unfolded description of the seek loop: started below F with enough fuel,
it visits the positions fp, fp+1, …, F-1, capturing once at each. -/
theorem seekVisits_spec (d : ℚ) (F : Nat) (attempt : Nat → Option String)
    (hd : 0 < d) :
    ∀ fuel fp : Nat, fp < F → F - fp < fuel →
      seekVisits d F attempt fuel fp =
        (List.range (F - fp)).map
          (fun j => (((fp + j : Nat) : ℚ) * d / (F : ℚ), attempt (fp + j))) := by
  intro fuel
  induction fuel with
  | zero => intro fp hfp hfuel; omega
  | succ fuel ih =>
    intro fp hfp hfuel
    by_cases hend : fp + 1 ≥ F
    · have hFfp : F - fp = 1 := by omega
      simp [seekVisits, hend, hFfp, List.range_succ]
    · have hlt : fp + 1 < F := by omega
      have hFQ : (0 : ℚ) < (F : ℚ) := by
        have : 0 < F := by omega
        exact_mod_cast this
      have hnext : ((fp : ℚ) + 1) * d / (F : ℚ) < d := by
        rw [div_lt_iff₀ hFQ]
        have hcast : ((fp : ℚ) + 1) < (F : ℚ) := by exact_mod_cast hlt
        calc ((fp : ℚ) + 1) * d < (F : ℚ) * d := by
              exact mul_lt_mul_of_pos_right hcast hd
          _ = d * (F : ℚ) := mul_comm _ _
      have hrec := ih (fp + 1) hlt (by omega)
      have hrange : F - fp = (F - (fp + 1)) + 1 := by omega
      simp only [seekVisits, if_neg hend, if_pos hnext, hrec, hrange,
        List.range_succ_eq_map, List.map_cons, List.map_map]
      congr 1
      apply List.map_congr_left
      intro j _
      simp only [Function.comp_apply]
      have hj : fp + Nat.succ j = fp + 1 + j := by omega
      rw [hj]

/-- The seek extraction visits exactly the F evenly spaced positions. -/
theorem seekExtract_spec (d : ℚ) (F : Nat) (attempt : Nat → Option String)
    (hd : 0 < d) (hF : 0 < F) :
    seekExtract d F attempt =
      (List.range F).map (fun (i : Nat) => ((i : ℚ) * d / (F : ℚ), attempt i)) := by
  have h := seekVisits_spec d F attempt hd (F + 1) 0 hF (by omega)
  simpa using h

/-- One fallback tick keeps the frame count equal to the counter and the
counter at most F. -/
theorem timedTickStep_inv (F : Nat) (s : TimedState) (t : TimedTick)
    (h1 : s.frames.length ≤ s.framesCaptured) (h2 : s.framesCaptured ≤ F) :
    (timedTickStep F s t).frames.length ≤ (timedTickStep F s t).framesCaptured ∧
      (timedTickStep F s t).framesCaptured ≤ F := by
  unfold timedTickStep
  by_cases hf : s.finished
  · simp only [hf, if_true]
    exact ⟨h1, h2⟩
  · have hff : s.finished = false := by revert hf; cases s.finished <;> simp
    simp only [hff, Bool.false_eq_true, if_false]
    by_cases hg : (F ≤ s.framesCaptured || FALLBACK_WINDOW_MS ≤ t.elapsedMs) = true
    · simp only [hg, if_true]
      exact ⟨h1, h2⟩
    · simp only [hg, if_false]
      have hcap : s.framesCaptured < F := by
        rcases Bool.or_eq_false_iff.mp (Bool.eq_false_iff.mpr hg) with ⟨ha, -⟩
        have := of_decide_eq_false ha
        omega
      cases hc : t.capture with
      | some f =>
          refine ⟨by simpa using Nat.succ_le_succ h1, hcap⟩
      | none => exact ⟨h1, h2⟩

/-- The timed fallback never gathers more than F frames. -/
theorem timedRun_le (F : Nat) (ticks : List TimedTick) :
    (timedRun F ticks).frames.length ≤ F := by
  have step : ∀ (ts : List TimedTick) (s : TimedState),
      s.frames.length ≤ s.framesCaptured → s.framesCaptured ≤ F →
      (List.foldl (timedTickStep F) s ts).frames.length ≤
          (List.foldl (timedTickStep F) s ts).framesCaptured ∧
        (List.foldl (timedTickStep F) s ts).framesCaptured ≤ F := by
    intro ts
    induction ts with
    | nil => exact fun s hs1 hs2 => ⟨hs1, hs2⟩
    | cons t ts ih =>
        intro s hs1 hs2
        have h := timedTickStep_inv F s t hs1 hs2
        exact ih _ h.1 h.2
  have h := step ticks ⟨[], 0, false⟩ (Nat.le_refl 0) (Nat.zero_le F)
  exact h.1.trans h.2

/-- C6 counterexample: the canvas 2D context being unavailable makes the
extraction reject although the blob's metadata loaded with a valid duration
and playback would have succeeded — a rejection that is neither a load
failure nor a play failure, refuting "it rejects only if the blob cannot be
loaded or played". -/
theorem extraction_rejects_without_load_or_play_error :
    extractFramesFromVideo false (.metadata (some 1)) 4 (fun _ => some "f")
        (.plays []) = .rejected ∧
    LoadOutcome.metadata (some 1) ≠ .loadError ∧
    PlayOutcome.plays ([] : List TimedTick) ≠ .playError := by
  refine ⟨rfl, ?_, ?_⟩
  · intro h
    exact LoadOutcome.noConfusion h
  · intro h
    exact PlayOutcome.noConfusion h

/-- C6 amended: with the canvas context available and usable duration metadata
d, the extraction visits exactly the timestamps i·d/F for i in [0, F),
captures once at each and resolves with the frames obtained; with unusable
duration it resolves with the timed fallback's at most F frames gathered over
the fixed 2000 ms window; and it rejects only when the canvas 2D context is
unavailable, on a load error, or, in the fallback, a play error. -/
theorem extraction_modes :
    (∀ (d : ℚ) (F : Nat) (attempt : Nat → Option String) (play : PlayOutcome),
      0 < d → 0 < F →
      extractFramesFromVideo true (.metadata (some d)) F attempt play =
        .resolved ((List.range F).filterMap attempt) ∧
      (seekExtract d F attempt).map Prod.fst =
        (List.range F).map (fun (i : Nat) => (i : ℚ) * d / (F : ℚ))) ∧
    (∀ (dur : Option ℚ) (F : Nat) (attempt : Nat → Option String)
        (ticks : List TimedTick), durationInvalid dur = true →
      extractFramesFromVideo true (.metadata dur) F attempt (.plays ticks) =
        .resolved (timedRun F ticks).frames ∧
      (timedRun F ticks).frames.length ≤ F) ∧
    FALLBACK_WINDOW_MS = 2000 ∧
    (∀ (load : LoadOutcome) (F : Nat) (attempt : Nat → Option String)
        (play : PlayOutcome),
      extractFramesFromVideo false load F attempt play = .rejected) ∧
    (∀ (F : Nat) (attempt : Nat → Option String) (play : PlayOutcome),
      extractFramesFromVideo true .loadError F attempt play = .rejected) ∧
    (∀ (ctxOk : Bool) (load : LoadOutcome) (F : Nat)
        (attempt : Nat → Option String) (play : PlayOutcome),
      extractFramesFromVideo ctxOk load F attempt play = .rejected →
      ctxOk = false ∨ load = .loadError ∨
        (∃ dur, load = .metadata dur ∧ durationInvalid dur = true ∧
          play = .playError)) := by
  refine ⟨?_, ?_, rfl, fun load F attempt play => rfl,
    fun F attempt play => rfl, ?_⟩
  · intro d F attempt play hd hF
    have hvalid : durationInvalid (some d) = false := by
      simp [durationInvalid, not_le, hd]
    constructor
    · simp only [extractFramesFromVideo, Bool.not_true, Bool.false_eq_true,
        if_false, hvalid, Option.getD_some]
      rw [seekExtract_spec d F attempt hd hF, List.filterMap_map]
      rfl
    · rw [seekExtract_spec d F attempt hd hF, List.map_map]
      rfl
  · intro dur F attempt ticks hdur
    exact ⟨by simp [extractFramesFromVideo, hdur], timedRun_le F ticks⟩
  · intro ctxOk load F attempt play h
    cases ctxOk with
    | false => exact Or.inl rfl
    | true =>
      refine Or.inr ?_
      cases load with
      | loadError => exact Or.inl rfl
      | metadata dur =>
        refine Or.inr ⟨dur, rfl, ?_⟩
        by_cases hdur : durationInvalid dur = true
        · cases play with
          | playError => exact ⟨hdur, rfl⟩
          | plays ticks => simp [extractFramesFromVideo, hdur] at h
        · have hdf : durationInvalid dur = false := by
            revert hdur; cases durationInvalid dur <;> simp
          simp [extractFramesFromVideo, hdf] at h

end GazeAnalysis
